import Mathlib

/-!
Shallow embedding of `src/tasks/panoptic_segmentation/adapters.py` from the
databricks-cv-architecture repository, together with proofs about the
adapter layer (output normalization, target re-keying, per-sample
formatting, and the model-name selector functions).

Python dictionaries with string keys are embedded as association lists
(`List (String × _)`), insertion-ordered as the Python code builds them.
Tensors are embedded as nested integer lists (`Tensor`); the leading
dimension of `Tensor.arr xs` is `xs.length`, and Python-style indexing and
`shape[0]` are fallible.  Python exceptions are embedded with
`Except PyErr`.
-/

/-- Python exceptions the adapter code can raise. -/
inductive PyErr where
  | attributeError (name : String)
  | keyError (name : String)
  | indexError
  | valueError (msg : String)
deriving DecidableEq, Repr

/-- Association-list lookup with string keys: the embedding of Python
`d[k]` / `k in d` on a dict (a Python dict has unique keys, so the first
hit is the value). -/
def lookupStr (k : String) : List (String × α) → Option α
  | [] => none
  | (k₂, v) :: rest => if k₂ = k then some v else lookupStr k rest

/-- Run a fallible step for each element in order, stopping at the first
error: the embedding of a Python `for` loop that appends to a result list
and can raise. -/
def mapExcept (f : α → Except ε β) : List α → Except ε (List β)
  | [] => Except.ok []
  | x :: xs =>
    match f x with
    | Except.error e => Except.error e
    | Except.ok y =>
      match mapExcept f xs with
      | Except.error e => Except.error e
      | Except.ok ys => Except.ok (y :: ys)

/-- Substring test on character lists: some suffix of `s` starts with
`pat`. -/
def listContainsSub (pat : List Char) : List Char → Bool
  | [] => pat.isEmpty
  | c :: rest => pat.isPrefixOf (c :: rest) || listContainsSub pat rest

/-- The embedding of the Python substring test `pat in s`. -/
def strContains (s pat : String) : Bool :=
  listContainsSub pat.data s.data

/-- The embedding of Python `s.lower()`: lowercase character by character
(model names are ASCII, where `Char.toLower` agrees with Python). -/
def toLowerStr (s : String) : String :=
  String.mk (s.data.map Char.toLower)

/-- A torch tensor as nested integer data: `s` is a 0-dimensional tensor,
`arr` stacks subtensors along the leading dimension.  (Real torch tensors
are rectangular; raggedness is representable here but never produced by the
embedded code.) -/
inductive Tensor where
  | s (x : Int)
  | arr (xs : List Tensor)

/-- Python `t.shape[0]`: the leading dimension; an IndexError on a
0-dimensional tensor. -/
def Tensor.shape0 : Tensor → Except PyErr Nat
  | .s _ => Except.error PyErr.indexError
  | .arr xs => Except.ok xs.length

/-- Python `t[i]`: slice along the leading dimension; IndexError when out
of range or on a 0-dimensional tensor. -/
def Tensor.expectIdx (t : Tensor) (i : Nat) : Except PyErr Tensor :=
  match t with
  | .s _ => Except.error PyErr.indexError
  | .arr xs =>
    match xs.get? i with
    | some x => Except.ok x
    | none => Except.error PyErr.indexError

def Tensor.isScalar : Tensor → Bool
  | .s _ => true
  | .arr _ => false

def Tensor.scalarVal : Tensor → Option Int
  | .s x => some x
  | .arr _ => none

/-- Index of the first maximum among `rest`, given the best value/index so
far and the index of the head of `rest`. -/
def argmaxAux (best : Int) (bestIdx : Nat) (cur : Nat) : List Int → Nat
  | [] => bestIdx
  | x :: xs =>
    if best < x then argmaxAux x cur (cur + 1) xs
    else argmaxAux best bestIdx (cur + 1) xs

/-- Index of the first maximum of a list; `none` on the empty list (torch
raises on an empty reduction). -/
def argmaxIdx : List Int → Option Nat
  | [] => none
  | x :: xs => some (argmaxAux x 0 1 xs)

mutual
/-- Torch `argmax(t, dim=-1)`: reduce the last dimension to the index of
its first maximal entry.  On a 0-dimensional tensor torch accepts `dim=-1`
and yields index 0; on a vector it yields a 0-dimensional index tensor;
on higher rank it maps over the leading dimensions. -/
def Tensor.argmaxLast : Tensor → Option Tensor
  | .s _ => some (.s 0)
  | .arr xs =>
    if xs.all Tensor.isScalar then
      (argmaxIdx (xs.filterMap Tensor.scalarVal)).map (fun i => Tensor.s (Int.ofNat i))
    else
      (argmaxLastList xs).map Tensor.arr

def argmaxLastList : List Tensor → Option (List Tensor)
  | [] => some []
  | x :: xs =>
    match x.argmaxLast, argmaxLastList xs with
    | some y, some ys => some (y :: ys)
    | _, _ => none
end

/-- A Python value as the adapter code sees it: `None`, a tensor, or a
dict. -/
inductive PyVal where
  | vnone
  | vtensor (t : Tensor)
  | vdict (entries : List (String × PyVal))

/-- Python `v is None`. -/
def PyVal.isNone : PyVal → Bool
  | .vnone => true
  | _ => false

/-- The raw forward-pass result handed to `adapt_output`: a duck-typed
record read by attribute access (`attrs`), which may additionally be a
mapping (`isDict`, with entries `items`) as Hugging Face `ModelOutput`
objects are. -/
structure RawOutput where
  isDict : Bool
  attrs : List (String × PyVal)
  items : List (String × PyVal)

/-- Python `getattr(o, name, d)`. -/
def getattrOr (o : RawOutput) (name : String) (d : PyVal) : PyVal :=
  match lookupStr name o.attrs with
  | some v => v
  | none => d

/-- Python `o.name`: AttributeError when the attribute is absent. -/
def getattrEx (o : RawOutput) (name : String) : Except PyErr PyVal :=
  match lookupStr name o.attrs with
  | some v => Except.ok v
  | none => Except.error (PyErr.attributeError name)

/-- Python `o.get(name)` on a dict: `None` when the key is absent. -/
def dictGet (o : RawOutput) (name : String) : PyVal :=
  match lookupStr name o.items with
  | some v => v
  | none => PyVal.vnone

/-- The fixed-key mapping `adapt_output` returns. -/
structure NormalizedOutput where
  loss : PyVal
  logits : PyVal
  pred_boxes : PyVal
  pred_masks : PyVal
  pred_panoptic_seg : PyVal
  loss_dict : PyVal

/-- Embedding of `PanopticSegmentationOutputAdapter.adapt_output` (adapters.py lines
116-136): `loss` via `getattr(outputs, "loss", None)` with a dict-key
fallback when that gave `None` and `outputs` is a mapping; then attribute
access (which raises when absent) for `logits`, `pred_boxes`,
`pred_masks`, `pred_panoptic_seg`, in the evaluation order of the Python
dict literal; `loss_dict` via `getattr(outputs, "loss_dict", {})`. -/
def adapt_output (o : RawOutput) : Except PyErr NormalizedOutput :=
  let loss0 := getattrOr o "loss" PyVal.vnone
  let loss := if loss0.isNone && o.isDict then dictGet o "loss" else loss0
  match getattrEx o "logits" with
  | Except.error e => Except.error e
  | Except.ok lg =>
  match getattrEx o "pred_boxes" with
  | Except.error e => Except.error e
  | Except.ok pb =>
  match getattrEx o "pred_masks" with
  | Except.error e => Except.error e
  | Except.ok pm =>
  match getattrEx o "pred_panoptic_seg" with
  | Except.error e => Except.error e
  | Except.ok pp =>
    Except.ok { loss := loss, logits := lg, pred_boxes := pb, pred_masks := pm,
                pred_panoptic_seg := pp,
                loss_dict := getattrOr o "loss_dict" (PyVal.vdict []) }

/-- Embedding of `PanopticSegmentationOutputAdapter.adapt_targets` (adapters.py lines
138-161): re-keys `panoptic_masks` (preferred) or else `labels` to
`labels`, `bounding_boxes` to `boxes`, `class_labels` to `class_labels`;
keys absent from the input are omitted.  Total: the Python body has no
raise and every subscript is guarded by an `in` check. -/
def adapt_targets (targets : List (String × Tensor)) : List (String × Tensor) :=
  (match lookupStr "panoptic_masks" targets with
   | some v => [("labels", v)]
   | none =>
     match lookupStr "labels" targets with
     | some v => [("labels", v)]
     | none => []) ++
  (match lookupStr "bounding_boxes" targets with
   | some v => [("boxes", v)]
   | none => []) ++
  (match lookupStr "class_labels" targets with
   | some v => [("class_labels", v)]
   | none => [])

/-- Embedding of `PanopticSegmentationOutputAdapter.format_predictions` (adapters.py
lines 163-187): KeyError on a missing key; loops `i` over
`range(logits.shape[0])` building one record per sample, slicing
`pred_panoptic_seg[i]`, `pred_masks[i]`, `pred_boxes[i]` and reducing
`torch.argmax(logits[i], dim=-1)`, in the evaluation order of the
Python dict literal. -/
def format_predictions (outputs : List (String × Tensor)) :
    Except PyErr (List (List (String × Tensor))) :=
  match lookupStr "logits" outputs with
  | none => Except.error (PyErr.keyError "logits")
  | some logits =>
  match lookupStr "pred_boxes" outputs with
  | none => Except.error (PyErr.keyError "pred_boxes")
  | some pred_boxes =>
  match lookupStr "pred_masks" outputs with
  | none => Except.error (PyErr.keyError "pred_masks")
  | some pred_masks =>
  match lookupStr "pred_panoptic_seg" outputs with
  | none => Except.error (PyErr.keyError "pred_panoptic_seg")
  | some pred_panoptic_seg =>
  match logits.shape0 with
  | Except.error e => Except.error e
  | Except.ok n =>
    mapExcept (fun i =>
      match pred_panoptic_seg.expectIdx i with
      | Except.error e => Except.error e
      | Except.ok pm =>
      match pred_masks.expectIdx i with
      | Except.error e => Except.error e
      | Except.ok im =>
      match pred_boxes.expectIdx i with
      | Except.error e => Except.error e
      | Except.ok bb =>
      match logits.expectIdx i with
      | Except.error e => Except.error e
      | Except.ok li =>
      match li.argmaxLast with
      | none => Except.error (PyErr.valueError "argmax")
      | some cp =>
        Except.ok [("panoptic_masks", pm), ("instance_masks", im),
                   ("bounding_boxes", bb), ("class_predictions", cp)])
      (List.range n)

/-- Embedding of `PanopticSegmentationOutputAdapter.format_targets` (adapters.py lines
189-221): selects the mask tensor from `panoptic_masks` (preferred) or
else `labels`, raising a `ValueError` naming both accepted keys when
neither key is present; reads `bounding_boxes` and
`class_labels` with `.get(..., None)`; loops `i` over
`range(masks.shape[0])` building one record per sample, appending the
optional fields only when present. -/
def format_targets (targets : List (String × Tensor)) :
    Except PyErr (List (List (String × Tensor))) :=
  match (match lookupStr "panoptic_masks" targets with
         | some v => Except.ok v
         | none =>
           match lookupStr "labels" targets with
           | some v => Except.ok v
           | none => Except.error (PyErr.valueError
               "Targets must contain \x27panoptic_masks\x27 or \x27labels\x27")) with
  | Except.error e => Except.error e
  | Except.ok masks =>
  let boxes := lookupStr "bounding_boxes" targets
  let class_labels := lookupStr "class_labels" targets
  match masks.shape0 with
  | Except.error e => Except.error e
  | Except.ok n =>
    mapExcept (fun i =>
      match masks.expectIdx i with
      | Except.error e => Except.error e
      | Except.ok m =>
      match (match boxes with
             | some b => (b.expectIdx i).map (fun bi => [("bounding_boxes", bi)])
             | none => Except.ok []) with
      | Except.error e => Except.error e
      | Except.ok bpart =>
      match (match class_labels with
             | some c => (c.expectIdx i).map (fun ci => [("class_labels", ci)])
             | none => Except.ok []) with
      | Except.error e => Except.error e
      | Except.ok cpart =>
        Except.ok ([("panoptic_masks", m)] ++ bpart ++ cpart))
      (List.range n)

/-- The input-adapter variants of adapters.py: `NoOpInputAdapter` and
`Mask2FormerInputAdapter` (whose constructor records the model name and
image size used to fetch the preprocessing recipe). -/
inductive InputAdapter where
  | noOp
  | mask2former (model_name : String) (image_size : Nat)
deriving DecidableEq, Repr

/-- Embedding of `get_input_adapter` (adapters.py lines 223-239): lowercase the model
name, return a `Mask2FormerInputAdapter` when it contains "mask2former",
else the default `NoOpInputAdapter`. -/
def get_input_adapter (model_name : String) (image_size : Nat) : InputAdapter :=
  let model_name_lower := toLowerStr model_name
  if strContains model_name_lower "mask2former" then
    InputAdapter.mask2former model_name image_size
  else
    InputAdapter.noOp

/-- The output-adapter variants: panoptic segmentation has a single one. -/
inductive OutputAdapterKind where
  | panopticSegmentation
deriving DecidableEq, Repr

/-- Embedding of `get_output_adapter` (adapters.py lines 241-252): always the single
`PanopticSegmentationOutputAdapter`. -/
def get_output_adapter (_model_name : String) : OutputAdapterKind :=
  OutputAdapterKind.panopticSegmentation

/-- Embedding of `get_panoptic_adapter` (adapters.py lines 255-265): backward-compatible
alias that delegates to `get_input_adapter`. -/
def get_panoptic_adapter (model_name : String) (image_size : Nat) : InputAdapter :=
  get_input_adapter model_name image_size

/-- Registry from the spec (ordered selector registry of spec section 4.3): (pattern,
variant-constructor) pairs tried in order against the lowercased model
name. -/
def input_registry : List (String × (String → Nat → InputAdapter)) :=
  [("mask2former", fun name size => InputAdapter.mask2former name size)]

/-- Selector from the spec: `select_input_adapter` of spec section 4.3,
written from the words of the spec for comparison with
`get_input_adapter`: case-insensitive
substring match of the model name against the ordered registry,
instantiating the first match, with the Identity (no-op) variant as the
designated default. -/
def select_input_adapter (model_name : String) (image_size : Nat) : InputAdapter :=
  match input_registry.find? (fun p => strContains (toLowerStr model_name) p.1) with
  | some p => p.2 model_name image_size
  | none => InputAdapter.noOp

/-! ## Supporting lemmas -/

/-- Lemma: `mapExcept` succeeds elementwise when every step succeeds. -/
lemma mapExcept_ok {α ε β : Type} {f : α → Except ε β} {g : α → β} :
    ∀ xs : List α, (∀ x ∈ xs, f x = Except.ok (g x)) → mapExcept f xs = Except.ok (xs.map g) := by
  intro xs h
  induction xs with
  | nil => rfl
  | cons x xs ih =>
    simp [mapExcept, h x (by simp), ih (fun y hy => h y (by simp [hy]))]

/-- Lemma: in-range slicing of a stacked tensor succeeds and returns the
list entry. -/
lemma expectIdx_arr_lt (xs : List Tensor) (i : Nat) (h : i < xs.length) :
    (Tensor.arr xs).expectIdx i = Except.ok ((xs.get? i).getD (Tensor.s 0)) := by
  cases hg : xs.get? i with
  | none => rw [List.get?_eq_none] at hg; omega
  | some a =>
    rw [List.get?_eq_getElem?] at hg
    simp [Tensor.expectIdx, hg]

/-- Lemma: `mapExcept` over an append runs the prefix first. -/
lemma mapExcept_append {α ε β : Type} (f : α → Except ε β) (xs ys : List α) :
    mapExcept f (xs ++ ys) =
      match mapExcept f xs with
      | Except.error e => Except.error e
      | Except.ok bs =>
        match mapExcept f ys with
        | Except.error e => Except.error e
        | Except.ok cs => Except.ok (bs ++ cs) := by
  induction xs with
  | nil =>
    cases h : mapExcept f ys <;> simp [mapExcept, h]
  | cons x xs ih =>
    cases hx : f x with
    | error e => simp [mapExcept, hx]
    | ok y =>
      simp [mapExcept, hx, ih]
      cases mapExcept f xs <;> cases mapExcept f ys <;> simp

/-- Lemma: a loop over `range n` aborts with the first failing index. -/
lemma mapExcept_range_err {ε β : Type} (f : Nat → Except ε β) (g : Nat → β) (k n : Nat) (e : ε)
    (hk : k < n) (hok : ∀ i, i < k → f i = Except.ok (g i)) (he : f k = Except.error e) :
    mapExcept f (List.range n) = Except.error e := by
  have hsplit : List.range n =
      List.range (k + 1) ++ (List.range (n - (k + 1))).map (fun j => (k + 1) + j) := by
    obtain ⟨m, rfl⟩ : ∃ m, n = (k + 1) + m := ⟨n - (k + 1), by omega⟩
    simp [List.range_add]
  rw [hsplit, mapExcept_append, List.range_succ, mapExcept_append,
    mapExcept_ok (g := g) (List.range k) (fun i hi => hok i (List.mem_range.mp hi))]
  simp [mapExcept, he]

/-- Lemma: `format_predictions` on a record with the four required keys is
the per-index loop over the leading dimension of `logits`. -/
lemma fp_unfold (lg bx mk ps : List Tensor) :
    format_predictions
      [("logits", Tensor.arr lg), ("pred_boxes", Tensor.arr bx),
       ("pred_masks", Tensor.arr mk), ("pred_panoptic_seg", Tensor.arr ps)] =
    mapExcept (fun i =>
      match (Tensor.arr ps).expectIdx i with
      | Except.error e => Except.error e
      | Except.ok pm =>
      match (Tensor.arr mk).expectIdx i with
      | Except.error e => Except.error e
      | Except.ok im =>
      match (Tensor.arr bx).expectIdx i with
      | Except.error e => Except.error e
      | Except.ok bb =>
      match (Tensor.arr lg).expectIdx i with
      | Except.error e => Except.error e
      | Except.ok li =>
      match li.argmaxLast with
      | none => Except.error (PyErr.valueError "argmax")
      | some cp =>
        Except.ok [("panoptic_masks", pm), ("instance_masks", im),
                   ("bounding_boxes", bb), ("class_predictions", cp)])
      (List.range lg.length) := rfl

/-- Lemma: `format_targets` on a full three-key record is the per-index
loop over the leading dimension of the masks. -/
lemma ft_unfold (ms bs cs : List Tensor) :
    format_targets
      [("panoptic_masks", Tensor.arr ms), ("bounding_boxes", Tensor.arr bs),
       ("class_labels", Tensor.arr cs)] =
    mapExcept (fun i =>
      match (Tensor.arr ms).expectIdx i with
      | Except.error e => Except.error e
      | Except.ok m =>
      match ((Tensor.arr bs).expectIdx i).map (fun bi => [("bounding_boxes", bi)]) with
      | Except.error e => Except.error e
      | Except.ok bpart =>
      match ((Tensor.arr cs).expectIdx i).map (fun ci => [("class_labels", ci)]) with
      | Except.error e => Except.error e
      | Except.ok cpart =>
        Except.ok ([("panoptic_masks", m)] ++ bpart ++ cpart))
      (List.range ms.length) := rfl

/-! ## Claim theorems -/

/-- C1: for every batch with batch size N ≥ 1 (the shared leading dimension
of the batched tensor fields), `format_predictions` and `format_targets`
each return exactly N records, and the record at index i is built by
slicing every batched field at index i (with the argmax reduction applied
to the logits slice), so record i corresponds to sample i. -/
theorem format_per_sample_index_correspondence
    (lg bx mk ps ms bs cs : List Tensor) (N : Nat) (_hN : 1 ≤ N)
    (hlg : lg.length = N) (hbx : bx.length = N) (hmk : mk.length = N) (hps : ps.length = N)
    (hms : ms.length = N) (hbs : bs.length = N) (hcs : cs.length = N)
    (harg : ∀ t ∈ lg, (Tensor.argmaxLast t).isSome = true) :
    ∃ precs trecs,
      format_predictions
        [("logits", Tensor.arr lg), ("pred_boxes", Tensor.arr bx),
         ("pred_masks", Tensor.arr mk), ("pred_panoptic_seg", Tensor.arr ps)] =
        Except.ok precs ∧
      format_targets
        [("panoptic_masks", Tensor.arr ms), ("bounding_boxes", Tensor.arr bs),
         ("class_labels", Tensor.arr cs)] = Except.ok trecs ∧
      precs.length = N ∧ trecs.length = N ∧
      (∀ i, i < N →
        (∀ pi mi bi li ci, ps.get? i = some pi → mk.get? i = some mi →
          bx.get? i = some bi → lg.get? i = some li → li.argmaxLast = some ci →
          precs.get? i = some
            [("panoptic_masks", pi), ("instance_masks", mi),
             ("bounding_boxes", bi), ("class_predictions", ci)]) ∧
        (∀ msi bsi csi, ms.get? i = some msi → bs.get? i = some bsi →
          cs.get? i = some csi →
          trecs.get? i = some
            [("panoptic_masks", msi), ("bounding_boxes", bsi),
             ("class_labels", csi)])) := by
  refine ⟨(List.range N).map (fun i =>
      [("panoptic_masks", (ps.get? i).getD (Tensor.s 0)),
       ("instance_masks", (mk.get? i).getD (Tensor.s 0)),
       ("bounding_boxes", (bx.get? i).getD (Tensor.s 0)),
       ("class_predictions", ((lg.get? i).getD (Tensor.s 0)).argmaxLast.getD (Tensor.s 0))]),
    (List.range N).map (fun i =>
      [("panoptic_masks", (ms.get? i).getD (Tensor.s 0)),
       ("bounding_boxes", (bs.get? i).getD (Tensor.s 0)),
       ("class_labels", (cs.get? i).getD (Tensor.s 0))]),
    ?_, ?_, by simp, by simp, ?_⟩
  · rw [fp_unfold, hlg]
    refine mapExcept_ok _ (fun i hi => ?_)
    have hi2 : i < N := List.mem_range.mp hi
    rw [expectIdx_arr_lt ps i (by omega), expectIdx_arr_lt mk i (by omega),
      expectIdx_arr_lt bx i (by omega), expectIdx_arr_lt lg i (by omega)]
    obtain ⟨la, hla⟩ : ∃ a, lg.get? i = some a := by
      cases h : lg.get? i with
      | none => rw [List.get?_eq_none] at h; omega
      | some a => exact ⟨a, rfl⟩
    have hmem : la ∈ lg := List.get?_mem hla
    obtain ⟨c, hc⟩ := Option.isSome_iff_exists.mp (harg la hmem)
    rw [List.get?_eq_getElem?] at hla
    simp [hla, hc]
  · rw [ft_unfold, hms]
    refine mapExcept_ok _ (fun i hi => ?_)
    have hi2 : i < N := List.mem_range.mp hi
    rw [expectIdx_arr_lt ms i (by omega), expectIdx_arr_lt bs i (by omega),
      expectIdx_arr_lt cs i (by omega)]
    rfl
  · intro i hi
    constructor
    · intro pi mi bi li ci hpi hmi hbi hli hci
      rw [List.get?_eq_getElem?, List.getElem?_map, List.getElem?_range hi]
      simp only [List.get?_eq_getElem?] at hpi hmi hbi hli
      simp [hpi, hmi, hbi, hli, hci]
    · intro msi bsi csi hmsi hbsi hcsi
      rw [List.get?_eq_getElem?, List.getElem?_map, List.getElem?_range hi]
      simp only [List.get?_eq_getElem?] at hmsi hbsi hcsi
      simp [hmsi, hbsi, hcsi]

/-- C1 witness: a concrete batch of size 2 on which both formatting calls
succeed with exactly 2 records. -/
theorem format_per_sample_index_correspondence_witness :
    ∃ precs trecs,
      format_predictions
        [("logits", Tensor.arr [Tensor.arr [Tensor.s 1, Tensor.s 0],
                                Tensor.arr [Tensor.s 0, Tensor.s 2]]),
         ("pred_boxes", Tensor.arr [Tensor.s 10, Tensor.s 11]),
         ("pred_masks", Tensor.arr [Tensor.s 20, Tensor.s 21]),
         ("pred_panoptic_seg", Tensor.arr [Tensor.s 30, Tensor.s 31])] =
        Except.ok precs ∧
      format_targets
        [("panoptic_masks", Tensor.arr [Tensor.s 40, Tensor.s 41]),
         ("bounding_boxes", Tensor.arr [Tensor.s 50, Tensor.s 51]),
         ("class_labels", Tensor.arr [Tensor.s 60, Tensor.s 61])] = Except.ok trecs ∧
      precs.length = 2 ∧ trecs.length = 2 := by
  obtain ⟨precs, trecs, hfp, hft, hlp, hlt, _⟩ :=
    format_per_sample_index_correspondence
      [Tensor.arr [Tensor.s 1, Tensor.s 0], Tensor.arr [Tensor.s 0, Tensor.s 2]]
      [Tensor.s 10, Tensor.s 11] [Tensor.s 20, Tensor.s 21] [Tensor.s 30, Tensor.s 31]
      [Tensor.s 40, Tensor.s 41] [Tensor.s 50, Tensor.s 51] [Tensor.s 60, Tensor.s 61]
      2 (by omega) rfl rfl rfl rfl rfl rfl rfl
      (by
        intro t ht
        simp only [List.mem_cons, List.not_mem_nil, or_false] at ht
        rcases ht with rfl | rfl <;>
          simp [Tensor.argmaxLast, Tensor.isScalar, Tensor.scalarVal, argmaxIdx, argmaxAux])
  exact ⟨precs, trecs, hfp, hft, hlp, hlt⟩

/-- C2: `adapt_output` never fails when an optional field (`loss`,
`loss_dict`) is absent, and fails exactly when one of the structurally
required prediction fields (`logits`, `pred_boxes`, `pred_masks`,
`pred_panoptic_seg`) is absent as an attribute of the raw output; the
failure is the attribute error naming that missing field (the failure the
spec calls `SchemaError`). -/
theorem adapt_output_required_fields (o : RawOutput) :
    ((∃ r, adapt_output o = Except.ok r) ↔
      ((lookupStr "logits" o.attrs).isSome = true ∧
       (lookupStr "pred_boxes" o.attrs).isSome = true ∧
       (lookupStr "pred_masks" o.attrs).isSome = true ∧
       (lookupStr "pred_panoptic_seg" o.attrs).isSome = true)) ∧
    (∀ e, adapt_output o = Except.error e →
      ∃ name, name ∈ ["logits", "pred_boxes", "pred_masks", "pred_panoptic_seg"] ∧
        lookupStr name o.attrs = none ∧ e = PyErr.attributeError name) := by
  cases h1 : lookupStr "logits" o.attrs <;>
    cases h2 : lookupStr "pred_boxes" o.attrs <;>
      cases h3 : lookupStr "pred_masks" o.attrs <;>
        cases h4 : lookupStr "pred_panoptic_seg" o.attrs <;>
          simp [adapt_output, getattrEx, h1, h2, h3, h4]

/-- C2 witness: a raw output with all four required fields but no `loss`
and no `loss_dict` succeeds; one missing `logits` fails with the attribute
error naming it. -/
theorem adapt_output_required_fields_witness :
    (∃ r, adapt_output
      (⟨false,
        [("logits", PyVal.vtensor (Tensor.s 0)), ("pred_boxes", PyVal.vtensor (Tensor.s 1)),
         ("pred_masks", PyVal.vtensor (Tensor.s 2)),
         ("pred_panoptic_seg", PyVal.vtensor (Tensor.s 3))],
        []⟩ : RawOutput) = Except.ok r) ∧
    (∃ name, name ∈ ["logits", "pred_boxes", "pred_masks", "pred_panoptic_seg"] ∧
      lookupStr name
        ((⟨false, [("pred_boxes", PyVal.vtensor (Tensor.s 1))], []⟩ : RawOutput)).attrs =
        none ∧
      PyErr.attributeError "logits" = PyErr.attributeError name) :=
  ⟨(adapt_output_required_fields _).1.mpr ⟨rfl, rfl, rfl, rfl⟩,
   (adapt_output_required_fields _).2 (PyErr.attributeError "logits") rfl⟩

/-- C3: for a raw result with no `loss` attribute and no `loss` mapping
key (both access styles checked) but all required prediction fields
present, `adapt_output` returns a normalized output whose `loss` is
`None`, with all other fields populated from the input and no exception
raised. -/
theorem adapt_output_loss_fallback (o : RawOutput) (lg pb pm pp : PyVal)
    (hattr : lookupStr "loss" o.attrs = none)
    (hkey : lookupStr "loss" o.items = none)
    (h1 : lookupStr "logits" o.attrs = some lg)
    (h2 : lookupStr "pred_boxes" o.attrs = some pb)
    (h3 : lookupStr "pred_masks" o.attrs = some pm)
    (h4 : lookupStr "pred_panoptic_seg" o.attrs = some pp) :
    adapt_output o = Except.ok
      { loss := PyVal.vnone, logits := lg, pred_boxes := pb, pred_masks := pm,
        pred_panoptic_seg := pp,
        loss_dict := getattrOr o "loss_dict" (PyVal.vdict []) } := by
  simp only [adapt_output, getattrEx, getattrOr, dictGet, hattr, hkey, h1, h2, h3, h4]
  cases o.isDict <;> simp [PyVal.isNone]

/-- C3 witness: a concrete mapping-style raw output without `loss` in
either access style yields `loss = None` and all other fields populated. -/
theorem adapt_output_loss_fallback_witness :
    adapt_output
      ⟨true,
       [("logits", PyVal.vtensor (Tensor.s 0)), ("pred_boxes", PyVal.vtensor (Tensor.s 1)),
        ("pred_masks", PyVal.vtensor (Tensor.s 2)),
        ("pred_panoptic_seg", PyVal.vtensor (Tensor.s 3))],
       []⟩ = Except.ok
      { loss := PyVal.vnone, logits := PyVal.vtensor (Tensor.s 0),
        pred_boxes := PyVal.vtensor (Tensor.s 1), pred_masks := PyVal.vtensor (Tensor.s 2),
        pred_panoptic_seg := PyVal.vtensor (Tensor.s 3), loss_dict := PyVal.vdict [] } :=
  adapt_output_loss_fallback _ _ _ _ _ rfl rfl rfl rfl rfl rfl

/-- C4 counterexample: batched prediction fields that do NOT share the same
leading dimension (`pred_boxes` has 2 rows, the others 1) on which
`format_predictions` succeeds instead of failing: the loop runs over the
leading dimension of `logits` only, so larger fields are silently
truncated. -/
theorem format_predictions_mismatch_no_failure :
    format_predictions
      [("logits", Tensor.arr [Tensor.arr [Tensor.s 0, Tensor.s 1]]),
       ("pred_boxes", Tensor.arr [Tensor.s 0, Tensor.s 9]),
       ("pred_masks", Tensor.arr [Tensor.s 5]),
       ("pred_panoptic_seg", Tensor.arr [Tensor.s 7])] =
    Except.ok [[("panoptic_masks", Tensor.s 7), ("instance_masks", Tensor.s 5),
      ("bounding_boxes", Tensor.s 0), ("class_predictions", Tensor.s 1)]] := by
  simp [format_predictions, lookupStr, Tensor.shape0, mapExcept, Tensor.expectIdx,
    Tensor.argmaxLast, Tensor.isScalar, Tensor.scalarVal, argmaxIdx, argmaxAux, List.range]

/-- C4 amended: when every batched prediction field has leading dimension
at least that of `logits`, `format_predictions` succeeds and the returned
sequence length equals the leading (batch) dimension of `logits` (so
fields larger than `logits` are tolerated, not an error); a field with a
smaller leading dimension than `logits` makes it fail with an index error
(there is no dedicated mismatch check). -/
theorem format_predictions_batch_dim_amended :
    (∀ (lg bx mk ps : List Tensor) (N : Nat),
      lg.length = N → N ≤ bx.length → N ≤ mk.length → N ≤ ps.length →
      (∀ t ∈ lg, (Tensor.argmaxLast t).isSome = true) →
      ∃ precs, format_predictions
        [("logits", Tensor.arr lg), ("pred_boxes", Tensor.arr bx),
         ("pred_masks", Tensor.arr mk), ("pred_panoptic_seg", Tensor.arr ps)] =
        Except.ok precs ∧ precs.length = N) ∧
    (∀ (lg bx mk ps : List Tensor),
      ps.length < lg.length → ps.length ≤ mk.length → ps.length ≤ bx.length →
      (∀ t ∈ lg, (Tensor.argmaxLast t).isSome = true) →
      format_predictions
        [("logits", Tensor.arr lg), ("pred_boxes", Tensor.arr bx),
         ("pred_masks", Tensor.arr mk), ("pred_panoptic_seg", Tensor.arr ps)] =
        Except.error PyErr.indexError) := by
  constructor
  · intro lg bx mk ps N hlg hbx hmk hps harg
    refine ⟨(List.range N).map (fun i =>
        [("panoptic_masks", (ps.get? i).getD (Tensor.s 0)),
         ("instance_masks", (mk.get? i).getD (Tensor.s 0)),
         ("bounding_boxes", (bx.get? i).getD (Tensor.s 0)),
         ("class_predictions",
            ((lg.get? i).getD (Tensor.s 0)).argmaxLast.getD (Tensor.s 0))]),
      ?_, by simp⟩
    rw [fp_unfold, hlg]
    refine mapExcept_ok _ (fun i hi => ?_)
    have hi2 : i < N := List.mem_range.mp hi
    rw [expectIdx_arr_lt ps i (by omega), expectIdx_arr_lt mk i (by omega),
      expectIdx_arr_lt bx i (by omega), expectIdx_arr_lt lg i (by omega)]
    obtain ⟨la, hla⟩ : ∃ a, lg.get? i = some a := by
      cases h : lg.get? i with
      | none => rw [List.get?_eq_none] at h; omega
      | some a => exact ⟨a, rfl⟩
    obtain ⟨c, hc⟩ := Option.isSome_iff_exists.mp (harg la (List.get?_mem hla))
    rw [List.get?_eq_getElem?] at hla
    simp [hla, hc]
  · intro lg bx mk ps hps hmk hbx harg
    rw [fp_unfold]
    refine mapExcept_range_err _ (fun i =>
        [("panoptic_masks", (ps.get? i).getD (Tensor.s 0)),
         ("instance_masks", (mk.get? i).getD (Tensor.s 0)),
         ("bounding_boxes", (bx.get? i).getD (Tensor.s 0)),
         ("class_predictions",
            ((lg.get? i).getD (Tensor.s 0)).argmaxLast.getD (Tensor.s 0))])
      ps.length lg.length PyErr.indexError hps (fun i hi => ?_) ?_
    · rw [expectIdx_arr_lt ps i (by omega), expectIdx_arr_lt mk i (by omega),
        expectIdx_arr_lt bx i (by omega), expectIdx_arr_lt lg i (by omega)]
      obtain ⟨la, hla⟩ : ∃ a, lg.get? i = some a := by
        cases h : lg.get? i with
        | none => rw [List.get?_eq_none] at h; omega
        | some a => exact ⟨a, rfl⟩
      obtain ⟨c, hc⟩ := Option.isSome_iff_exists.mp (harg la (List.get?_mem hla))
      rw [List.get?_eq_getElem?] at hla
      simp [hla, hc]
    · have hnone : ps.get? ps.length = none := by
        rw [List.get?_eq_none]
      rw [List.get?_eq_getElem?] at hnone
      simp [Tensor.expectIdx, hnone]

/-- C4 amended witness: concrete agreement and smaller-field cases. -/
theorem format_predictions_batch_dim_amended_witness :
    (∃ precs, format_predictions
        [("logits", Tensor.arr [Tensor.arr [Tensor.s 0, Tensor.s 1]]),
         ("pred_boxes", Tensor.arr [Tensor.s 0, Tensor.s 9]),
         ("pred_masks", Tensor.arr [Tensor.s 5]),
         ("pred_panoptic_seg", Tensor.arr [Tensor.s 7])] =
        Except.ok precs ∧ precs.length = 1) ∧
    format_predictions
      [("logits", Tensor.arr [Tensor.arr [Tensor.s 0], Tensor.arr [Tensor.s 1]]),
       ("pred_boxes", Tensor.arr [Tensor.s 0, Tensor.s 1]),
       ("pred_masks", Tensor.arr [Tensor.s 2, Tensor.s 3]),
       ("pred_panoptic_seg", Tensor.arr [Tensor.s 4])] = Except.error PyErr.indexError := by
  constructor
  · exact format_predictions_batch_dim_amended.1 _ _ _ _ 1 rfl (by decide) (by decide)
      (by decide)
      (by
        intro t ht
        simp only [List.mem_cons, List.not_mem_nil, or_false] at ht
        subst ht
        simp [Tensor.argmaxLast, Tensor.isScalar, Tensor.scalarVal, argmaxIdx, argmaxAux])
  · exact format_predictions_batch_dim_amended.2 _ _ _ _ (by decide) (by decide) (by decide)
      (by
        intro t ht
        simp only [List.mem_cons, List.not_mem_nil, or_false] at ht
        rcases ht with rfl | rfl <;>
          simp [Tensor.argmaxLast, Tensor.isScalar, Tensor.scalarVal, argmaxIdx, argmaxAux])

/-- C5: for every target mapping containing neither `panoptic_masks` nor
`labels`, `format_targets` fails with the `ValueError` (the failure the
spec calls `SchemaError`) whose message names both accepted key names. -/
theorem format_targets_missing_masks (t : List (String × Tensor))
    (hp : lookupStr "panoptic_masks" t = none) (hl : lookupStr "labels" t = none) :
    format_targets t = Except.error (PyErr.valueError
      "Targets must contain \x27panoptic_masks\x27 or \x27labels\x27") ∧
    strContains "Targets must contain \x27panoptic_masks\x27 or \x27labels\x27"
      "panoptic_masks" = true ∧
    strContains "Targets must contain \x27panoptic_masks\x27 or \x27labels\x27"
      "labels" = true := by
  refine ⟨?_, by decide, by decide⟩
  simp [format_targets, hp, hl]

/-- C5 witness: the spec scenario, a mapping containing only
`bounding_boxes`. -/
theorem format_targets_missing_masks_witness :
    format_targets [("bounding_boxes", Tensor.s 0)] = Except.error (PyErr.valueError
      "Targets must contain \x27panoptic_masks\x27 or \x27labels\x27") ∧
    strContains "Targets must contain \x27panoptic_masks\x27 or \x27labels\x27"
      "panoptic_masks" = true ∧
    strContains "Targets must contain \x27panoptic_masks\x27 or \x27labels\x27"
      "labels" = true :=
  format_targets_missing_masks _ rfl rfl

/-- C6: when `panoptic_masks` is present (with value v), `adapt_targets`
re-keys v to `labels`, and both `adapt_targets` and `format_targets` are
oblivious to the `labels` entry of the input: two inputs with the same
`panoptic_masks`, `bounding_boxes` and `class_labels` lookups but
arbitrary (even absent) `labels` entries produce identical results. -/
theorem adapt_targets_priority (t₁ t₂ : List (String × Tensor)) (v : Tensor)
    (h1 : lookupStr "panoptic_masks" t₁ = some v)
    (h2 : lookupStr "panoptic_masks" t₂ = some v)
    (hb : lookupStr "bounding_boxes" t₁ = lookupStr "bounding_boxes" t₂)
    (hc : lookupStr "class_labels" t₁ = lookupStr "class_labels" t₂) :
    lookupStr "labels" (adapt_targets t₁) = some v ∧
    adapt_targets t₁ = adapt_targets t₂ ∧
    format_targets t₁ = format_targets t₂ := by
  refine ⟨?_, ?_, ?_⟩
  · simp [adapt_targets, h1, lookupStr]
  · simp [adapt_targets, h1, h2, hb, hc]
  · simp [format_targets, h1, h2, hb, hc]

/-- C6 witness: a mapping with both keys behaves exactly as one with the
`labels` entry dropped, and its `labels` output is the `panoptic_masks`
value. -/
theorem adapt_targets_priority_witness :
    lookupStr "labels"
      (adapt_targets [("panoptic_masks", Tensor.arr [Tensor.s 1]),
        ("labels", Tensor.arr [Tensor.s 2])]) = some (Tensor.arr [Tensor.s 1]) ∧
    adapt_targets [("panoptic_masks", Tensor.arr [Tensor.s 1]),
      ("labels", Tensor.arr [Tensor.s 2])] =
      adapt_targets [("panoptic_masks", Tensor.arr [Tensor.s 1])] ∧
    format_targets [("panoptic_masks", Tensor.arr [Tensor.s 1]),
      ("labels", Tensor.arr [Tensor.s 2])] =
      format_targets [("panoptic_masks", Tensor.arr [Tensor.s 1])] :=
  adapt_targets_priority _ _ _ rfl rfl rfl rfl

/-- C7: `adapt_targets` is a strict subset re-keying: every record in its
output takes the value of one of the input keys (`panoptic_masks`,
`labels`, `bounding_boxes` or `class_labels` — no fabrication), and a
field absent from the input is simply omitted from the output. -/
theorem adapt_targets_subset_rekeying (t : List (String × Tensor)) :
    (∀ p ∈ adapt_targets t,
      lookupStr "panoptic_masks" t = some p.2 ∨ lookupStr "labels" t = some p.2 ∨
      lookupStr "bounding_boxes" t = some p.2 ∨ lookupStr "class_labels" t = some p.2) ∧
    (lookupStr "bounding_boxes" t = none → lookupStr "boxes" (adapt_targets t) = none) ∧
    (lookupStr "class_labels" t = none →
      lookupStr "class_labels" (adapt_targets t) = none) ∧
    (lookupStr "panoptic_masks" t = none → lookupStr "labels" t = none →
      lookupStr "labels" (adapt_targets t) = none) := by
  cases hpm : lookupStr "panoptic_masks" t <;>
    cases hlb : lookupStr "labels" t <;>
      cases hbb : lookupStr "bounding_boxes" t <;>
        cases hcl : lookupStr "class_labels" t <;>
          simp [adapt_targets, hpm, hlb, hbb, hcl, lookupStr]

/-- C8 counterexample: on an input missing the required mask field
(`panoptic_masks`/`labels`), `adapt_targets` does NOT fail — it returns a
mapping that silently omits the `labels` field (the failure the claim
requires only happens later, in `format_targets`). -/
theorem adapt_targets_missing_no_failure :
    adapt_targets [("bounding_boxes", Tensor.s 0)] = [("boxes", Tensor.s 0)] ∧
    lookupStr "labels" (adapt_targets [("bounding_boxes", Tensor.s 0)]) = none :=
  ⟨rfl, rfl⟩

/-- C8 amended: for every target mapping missing the required mask field,
`adapt_targets` returns without failing a mapping omitting `labels`; the
required-field failure is raised by `format_targets` instead. -/
theorem adapt_targets_missing_field_behavior (t : List (String × Tensor))
    (hp : lookupStr "panoptic_masks" t = none) (hl : lookupStr "labels" t = none) :
    lookupStr "labels" (adapt_targets t) = none ∧
    format_targets t = Except.error (PyErr.valueError
      "Targets must contain \x27panoptic_masks\x27 or \x27labels\x27") := by
  constructor
  · cases hb : lookupStr "bounding_boxes" t <;>
      cases hc : lookupStr "class_labels" t <;>
        simp [adapt_targets, hp, hl, hb, hc, lookupStr]
  · simp [format_targets, hp, hl]

/-- C8 amended witness: a concrete mapping with only `class_labels`. -/
theorem adapt_targets_missing_field_behavior_witness :
    lookupStr "labels" (adapt_targets [("class_labels", Tensor.s 3)]) = none ∧
    format_targets [("class_labels", Tensor.s 3)] = Except.error (PyErr.valueError
      "Targets must contain \x27panoptic_masks\x27 or \x27labels\x27") :=
  adapt_targets_missing_field_behavior _ rfl rfl

/-- C9: `get_input_adapter` coincides with the registry-based selector the
spec describes (case-insensitive substring match with the no-op Identity
default): it returns the no-op adapter exactly when no registered pattern
matches the lowercased name, `get_output_adapter` always returns the sole
registered output variant, and the unknown name "totally-unknown-arch"
selects the no-op default rather than failing. -/
theorem selector_registry_default (model_name : String) (image_size : Nat) :
    get_input_adapter model_name image_size = select_input_adapter model_name image_size ∧
    (get_input_adapter model_name image_size = InputAdapter.noOp ↔
      strContains (toLowerStr model_name) "mask2former" = false) ∧
    get_output_adapter model_name = OutputAdapterKind.panopticSegmentation ∧
    get_input_adapter "totally-unknown-arch" 512 = InputAdapter.noOp := by
  refine ⟨?_, ?_, rfl, by decide⟩
  · simp only [get_input_adapter, select_input_adapter, input_registry, List.find?]
    cases strContains (toLowerStr model_name) "mask2former" <;> simp
  · simp only [get_input_adapter]
    cases strContains (toLowerStr model_name) "mask2former" <;> simp

/-- C10: the backward-compatibility selector `get_panoptic_adapter` is
equivalent to `get_input_adapter` on every model name and image size. -/
theorem get_panoptic_adapter_equiv (model_name : String) (image_size : Nat) :
    get_panoptic_adapter model_name image_size = get_input_adapter model_name image_size :=
  rfl
